import Mathlib

/-!
Verification of the mcp23009 one-hot GPO driver (src/files/mcp23009.c).

Shallow embedding: the driver state `struct mcp23009_data` becomes a Lean
structure, each driver entry point becomes a pure function that takes the
state, the call arguments and the outcome the i2c transport reports for each
`i2c_master_send` call, and returns the C return value, the new state and the
list of 2-byte frames handed to the transport.  Machine integers are modelled
as Nat/Int with explicit `% 256` where a value is stored into a `u8`.
-/

/-- Linux errno used by the driver: `EINVAL` (invalid argument). -/
def EINVAL : Int := 22

/-- `IIO_CHAN_INFO_RAW` selector value (first member of `enum iio_chan_info_enum`). -/
def IIO_CHAN_INFO_RAW : Int := 0

/-- `IIO_CHAN_INFO_SCALE` selector value (second member of `enum iio_chan_info_enum`). -/
def IIO_CHAN_INFO_SCALE : Int := 1

/-- `IIO_VAL_INT` return code of `read_raw` (value is a plain integer). -/
def IIO_VAL_INT : Int := 1

/-- A 2-byte i2c frame `[register_address, data_byte]`, the only shape the
driver ever sends. -/
abbrev Frame := Nat × Nat

/-- The fields of `struct mcp23009_data` the driver logic reads or writes
(`client` and `id` are opaque handles and carry no driver logic).
`num_out` is a C `unsigned`, `out_value` and `inout_mask` are `u8`. -/
structure Mcp23009Data where
  num_out : Nat
  out_value : Nat
  inout_mask : Nat
deriving Repr, DecidableEq

/-- Result of `mcp23009_set_value`: the C return value and the frames passed
to `i2c_master_send`. -/
structure SetValueResult where
  status : Int
  writes : List Frame
deriving Repr, DecidableEq

/-- `mcp23009_set_value` (mcp23009.c lines 63-88).  `busRet` is the value
`i2c_master_send` returns for the single transfer.  Rejects `val > 8` or
`val < 0` with `-EINVAL` before touching the bus; otherwise sends
`[0x09, bitmask]` where the bitmask is `0` for `val == 0` and
`1 << (val-1)` (stored into a `u8`, hence `% 256`) otherwise, then maps the
transport outcome: negative status is propagated, a transfer count other
than 2 becomes `-EIO` (= -5), and 2 becomes success 0. -/
def mcp23009_set_value (val : Int) (busRet : Int) : SetValueResult :=
  if val > 8 ∨ val < 0 then
    ⟨-EINVAL, []⟩
  else
    let outbuf : Frame :=
      (0x09, if val = 0 then 0 else (1 <<< (val.toNat - 1)) % 256)
    if busRet < 0 then ⟨busRet, [outbuf]⟩
    else if busRet ≠ 2 then ⟨-5, [outbuf]⟩
    else ⟨0, [outbuf]⟩

/-- Result of `mcp23009_write_raw`: return value, updated state, frames sent. -/
structure WriteRawResult where
  status : Int
  data : Mcp23009Data
  writes : List Frame
deriving Repr, DecidableEq

/-- `mcp23009_write_raw` (mcp23009.c lines 107-131).  On the
`IIO_CHAN_INFO_RAW` selector, if `0 <= val <= num_out` it calls
`mcp23009_set_value` and then assigns `data->out_value = val`
unconditionally (the assignment is not guarded by the call's outcome);
otherwise, and for any other selector, it returns `-EINVAL` untouched. -/
def mcp23009_write_raw (d : Mcp23009Data) (val : Int) (mask : Int)
    (busRet : Int) : WriteRawResult :=
  if mask = IIO_CHAN_INFO_RAW then
    if 0 ≤ val ∧ val ≤ (d.num_out : Int) then
      let r := mcp23009_set_value val busRet
      ⟨r.status, ⟨d.num_out, val.toNat % 256, d.inout_mask⟩, r.writes⟩
    else
      ⟨-EINVAL, d, []⟩
  else
    ⟨-EINVAL, d, []⟩

/-- Result of `mcp23009_read_raw`: return value, the integer stored through
`*val` (when any), frames sent (the function never touches the bus). -/
structure ReadRawResult where
  status : Int
  val : Option Int
  writes : List Frame
deriving Repr, DecidableEq

/-- `mcp23009_read_raw` (mcp23009.c lines 90-105).  Returns the stored
`out_value` for `IIO_CHAN_INFO_RAW`, the constant 1 for
`IIO_CHAN_INFO_SCALE`, `-EINVAL` otherwise; it assigns no field of `data`
and performs no i2c transfer. -/
def mcp23009_read_raw (d : Mcp23009Data) (mask : Int) : ReadRawResult :=
  if mask = IIO_CHAN_INFO_RAW then ⟨IIO_VAL_INT, some (d.out_value : Int), []⟩
  else if mask = IIO_CHAN_INFO_SCALE then ⟨IIO_VAL_INT, some 1, []⟩
  else ⟨-EINVAL, none, []⟩

/-- `data->inout_mask = ~((1UL << data->num_out) - 1) & 0xFF`
(mcp23009.c line 200): the complement is taken on the 64-bit
`unsigned long`, then truncated to 8 bits. -/
def compute_inout_mask (num_out : Nat) : Nat :=
  ((2 ^ 64 - 1) - ((1 <<< num_out) - 1) % 2 ^ 64) &&& 0xFF

/-- Result of `mcp23009_probe`: return value, the initialized driver state
(when probing succeeded), frames sent. -/
structure ProbeResult where
  status : Int
  data : Option Mcp23009Data
  writes : List Frame
deriving Repr, DecidableEq

/-- `mcp23009_probe` (mcp23009.c lines 161-232), from the point where
`pdata->num_out` has been resolved.  `busRet1`/`busRet2` are the values
`i2c_master_send` returns for the two configuration transfers.  Rejects
`num_out > 8` with `-EINVAL` before any bus traffic; otherwise computes
`inout_mask`, sends `[0x00, inout_mask]` and then `[0x06, 0xFF]`, failing
with `-EIO` (= -5) and aborting as soon as a transfer reports a negative
status or a count other than 2.  `out_value` starts at 0 because
`devm_iio_device_alloc` zero-fills the private data. -/
def mcp23009_probe (num_out : Nat) (busRet1 busRet2 : Int) : ProbeResult :=
  if num_out > 8 then
    ⟨-EINVAL, none, []⟩
  else
    let inout_mask := compute_inout_mask num_out
    let frame1 : Frame := (0x00, inout_mask)
    if busRet1 < 0 ∨ busRet1 ≠ 2 then
      ⟨-5, none, [frame1]⟩
    else
      let frame2 : Frame := (0x06, 0xFF)
      if busRet2 < 0 ∨ busRet2 ≠ 2 then
        ⟨-5, none, [frame1, frame2]⟩
      else
        ⟨0, some ⟨num_out, 0, inout_mask⟩, [frame1, frame2]⟩

/-- One driver call after initialization, together with the transport
outcome it observes. -/
inductive Op where
  | writeRaw (val : Int) (mask : Int) (busRet : Int)
  | readRaw (mask : Int)
deriving Repr

/-- Run a sequence of post-probe driver calls, threading the state.
`mcp23009_read_raw` assigns no field of the state, so it leaves it as is. -/
def runOps (d : Mcp23009Data) : List Op → Mcp23009Data
  | [] => d
  | Op.writeRaw v m r :: rest => runOps (mcp23009_write_raw d v m r).data rest
  | Op.readRaw _ :: rest => runOps d rest

/-- `b` is one-hot-or-zero as an 8-bit value: zero or a single power of two
below 2^8. -/
def oneHot8 (b : Nat) : Bool :=
  b == 0 || (List.range 8).any fun k => b == 2 ^ k

/-! ### Helper lemmas -/

/-- The frames `mcp23009_set_value` sends do not depend on the transport
outcome: nothing for a rejected value, the single frame otherwise. -/
theorem set_value_writes (val busRet : Int) :
    (mcp23009_set_value val busRet).writes =
      if val > 8 ∨ val < 0 then []
      else [(0x09, if val = 0 then 0 else (1 <<< (val.toNat - 1)) % 256)] := by
  simp only [mcp23009_set_value]
  split_ifs <;> rfl

/-- A successful transfer of an accepted value returns 0. -/
theorem set_value_status_ok (val : Int) (h0 : 0 ≤ val) (h8 : val ≤ 8) :
    (mcp23009_set_value val 2).status = 0 := by
  unfold mcp23009_set_value
  rw [if_neg (by omega)]
  norm_num

/-- In-range branch of `mcp23009_write_raw`: it defers to
`mcp23009_set_value` and stores `val` into `out_value` unconditionally. -/
theorem write_raw_in_range (d : Mcp23009Data) (val busRet : Int)
    (h0 : 0 ≤ val) (h1 : val ≤ (d.num_out : Int)) :
    mcp23009_write_raw d val IIO_CHAN_INFO_RAW busRet =
      ⟨(mcp23009_set_value val busRet).status,
       ⟨d.num_out, val.toNat % 256, d.inout_mask⟩,
       (mcp23009_set_value val busRet).writes⟩ := by
  unfold mcp23009_write_raw
  rw [if_pos rfl, if_pos ⟨h0, h1⟩]

/-- `GoodState d` is the state invariant of the driver: the selected channel
never exceeds the configured pin count, and the pin count is at most 8. -/
def GoodState (d : Mcp23009Data) : Prop :=
  d.out_value ≤ d.num_out ∧ d.num_out ≤ 8

/-- `oneHot8` holds for zero. -/
theorem oneHot8_zero : oneHot8 0 = true := by decide

/-- `oneHot8` holds for every power of two below 2^8. -/
theorem oneHot8_pow (k : Nat) (hk : k ≤ 7) : oneHot8 (2 ^ k) = true := by
  interval_cases k <;> decide

/-! ### Claim theorems -/

/-- Claim C1 (code-bug evidence): with `num_out = 8` and stored
`out_value = 0`, a `SetValue(3)` whose bus transfer reports status -1
returns the failure to the caller, yet the stored `out_value` becomes 3
(and `ReadValue` then reports 3) instead of staying at its pre-call value 0;
the same happens on a short transfer (count 1, reported as `-EIO`).  The
spec's corrected semantics say `out_value` is updated only on success. -/
theorem writeRaw_updates_out_value_despite_failure :
    (mcp23009_write_raw ⟨8, 0, 0⟩ 3 IIO_CHAN_INFO_RAW (-1)).status = -1 ∧
    (mcp23009_write_raw ⟨8, 0, 0⟩ 3 IIO_CHAN_INFO_RAW (-1)).data.out_value = 3 ∧
    (mcp23009_read_raw (mcp23009_write_raw ⟨8, 0, 0⟩ 3 IIO_CHAN_INFO_RAW (-1)).data
        IIO_CHAN_INFO_RAW).val = some 3 ∧
    (mcp23009_write_raw ⟨8, 0, 0⟩ 3 IIO_CHAN_INFO_RAW 1).status = -5 ∧
    (mcp23009_write_raw ⟨8, 0, 0⟩ 3 IIO_CHAN_INFO_RAW 1).data.out_value = 3 := by
  decide

/-- Claim C2: for an accepted channel (0 ≤ channel ≤ num_out ≤ 8),
`SetValue` sends exactly one 2-byte frame to register 0x09 whose data byte
is 0 for channel 0 and `1 << (channel-1)` otherwise, and that data byte is
one-hot (at most one bit set). -/
theorem setValue_one_hot_frame (d : Mcp23009Data) (val busRet : Int)
    (hn : d.num_out ≤ 8) (h0 : 0 ≤ val) (h1 : val ≤ (d.num_out : Int)) :
    (mcp23009_write_raw d val IIO_CHAN_INFO_RAW busRet).writes =
      [(0x09, if val = 0 then 0 else 2 ^ (val.toNat - 1))] ∧
    ∀ f ∈ (mcp23009_write_raw d val IIO_CHAN_INFO_RAW busRet).writes,
      oneHot8 f.2 = true := by
  have h8 : val ≤ 8 := h1.trans (by exact_mod_cast hn)
  have hfr : (mcp23009_write_raw d val IIO_CHAN_INFO_RAW busRet).writes =
      [(0x09, if val = 0 then 0 else 2 ^ (val.toNat - 1))] := by
    rw [write_raw_in_range d val busRet h0 h1]
    dsimp only
    rw [set_value_writes, if_neg (by omega)]
    by_cases hz : val = 0
    · simp [hz]
    · have hk : val.toNat - 1 ≤ 7 := by omega
      simp only [hz, if_false]
      rw [Nat.shiftLeft_eq, one_mul,
        Nat.mod_eq_of_lt
          (lt_of_le_of_lt (Nat.pow_le_pow_right (by norm_num) hk) (by norm_num))]
  refine ⟨hfr, ?_⟩
  rw [hfr]
  intro f hf
  simp only [List.mem_singleton] at hf
  subst hf
  by_cases hz : val = 0
  · simp only [hz, if_true]
    exact oneHot8_zero
  · simp only [hz, if_false]
    exact oneHot8_pow _ (by omega)

/-- Witness for C2 at `num_out = 8`, channel 3, successful transfer. -/
theorem setValue_one_hot_frame_witness :
    (mcp23009_write_raw ⟨8, 0, 0⟩ 3 IIO_CHAN_INFO_RAW 2).writes =
      [(0x09, if (3 : Int) = 0 then 0 else 2 ^ ((3 : Int).toNat - 1))] ∧
    ∀ f ∈ (mcp23009_write_raw ⟨8, 0, 0⟩ 3 IIO_CHAN_INFO_RAW 2).writes,
      oneHot8 f.2 = true :=
  setValue_one_hot_frame ⟨8, 0, 0⟩ 3 2 (by norm_num) (by norm_num) (by norm_num)

/-- Claim C3: for every `num_out ≤ 8` the computed direction mask is
`~((1 << num_out) - 1) & 0xFF = 256 - 2 ^ num_out` (so 0 ↦ 0xFF, 3 ↦ 0xF8,
5 ↦ 0xE0, 8 ↦ 0x00), and a successful probe stores exactly that mask. -/
theorem probe_inout_mask (n : Nat) (hn : n ≤ 8) :
    compute_inout_mask n = 256 - 2 ^ n ∧
    (mcp23009_probe n 2 2).data = some ⟨n, 0, 256 - 2 ^ n⟩ := by
  have hmask : compute_inout_mask n = 256 - 2 ^ n := by
    interval_cases n <;> rfl
  refine ⟨hmask, ?_⟩
  simp only [mcp23009_probe]
  rw [if_neg (by omega)]
  norm_num [hmask]

/-- Witness for C3 at `num_out = 5` (mask 0xE0). -/
theorem probe_inout_mask_witness :
    compute_inout_mask 5 = 256 - 2 ^ 5 ∧
    (mcp23009_probe 5 2 2).data = some ⟨5, 0, 256 - 2 ^ 5⟩ :=
  probe_inout_mask 5 (by norm_num)

/-- Claim C4: for a channel outside `[0, num_out]` the raw-value write entry
point returns `-EINVAL`, sends no frame, and leaves the state untouched. -/
theorem writeRaw_out_of_range (d : Mcp23009Data) (val busRet : Int)
    (h : val < 0 ∨ (d.num_out : Int) < val) :
    mcp23009_write_raw d val IIO_CHAN_INFO_RAW busRet = ⟨-EINVAL, d, []⟩ := by
  unfold mcp23009_write_raw
  rw [if_pos rfl, if_neg (by omega)]

/-- Witness for C4: `num_out = 3`, channel 4 (as in the spec scenario). -/
theorem writeRaw_out_of_range_witness :
    mcp23009_write_raw ⟨3, 0, 0xF8⟩ 4 IIO_CHAN_INFO_RAW 2 =
      ⟨-EINVAL, ⟨3, 0, 0xF8⟩, []⟩ :=
  writeRaw_out_of_range ⟨3, 0, 0xF8⟩ 4 2 (by decide)

/-- Claim C5: for every `num_out > 8` the probe fails with `-EINVAL` and
sends nothing on the bus. -/
theorem probe_rejects_large_num_out (n : Nat) (r1 r2 : Int) (h : 8 < n) :
    mcp23009_probe n r1 r2 = ⟨-EINVAL, none, []⟩ := by
  unfold mcp23009_probe
  rw [if_pos h]

/-- Witness for C5 at `num_out = 9`. -/
theorem probe_rejects_large_num_out_witness :
    mcp23009_probe 9 2 2 = ⟨-EINVAL, none, []⟩ :=
  probe_rejects_large_num_out 9 2 2 (by norm_num)

/-- Claim C6: for `num_out ≤ 8` the probe sends `[0x00, inout_mask]` and
then `[0x06, 0xFF]`; if both transfers succeed it returns 0 with the
initialized state, if the first transfer fails (negative status or count ≠ 2)
it returns `-EIO` without issuing the second frame, and if the second fails
it returns `-EIO` after both frames. -/
theorem probe_two_phase_config (n : Nat) (r1 r2 : Int) (hn : n ≤ 8) :
    (r1 = 2 → r2 = 2 →
      mcp23009_probe n r1 r2 =
        ⟨0, some ⟨n, 0, compute_inout_mask n⟩,
         [(0x00, compute_inout_mask n), (0x06, 0xFF)]⟩) ∧
    ((r1 < 0 ∨ r1 ≠ 2) →
      mcp23009_probe n r1 r2 = ⟨-5, none, [(0x00, compute_inout_mask n)]⟩) ∧
    (r1 = 2 → (r2 < 0 ∨ r2 ≠ 2) →
      mcp23009_probe n r1 r2 =
        ⟨-5, none, [(0x00, compute_inout_mask n), (0x06, 0xFF)]⟩) := by
  simp only [mcp23009_probe]
  rw [if_neg (by omega)]
  refine ⟨?_, ?_, ?_⟩
  · intro h1 h2
    subst h1; subst h2
    norm_num
  · intro h1
    rw [if_pos h1]
  · intro h1 h2
    subst h1
    rw [if_neg (by norm_num), if_pos h2]

/-- Witness for C6 at `num_out = 3` with both transfers succeeding. -/
theorem probe_two_phase_config_witness :
    mcp23009_probe 3 2 2 =
      ⟨0, some ⟨3, 0, compute_inout_mask 3⟩,
       [(0x00, compute_inout_mask 3), (0x06, 0xFF)]⟩ :=
  (probe_two_phase_config 3 2 2 (by norm_num)).1 rfl rfl

/-- `mcp23009_write_raw` preserves the driver invariant `GoodState`: any
update stores a value the range check has already bounded by `num_out`. -/
theorem write_raw_preserves_goodState (d : Mcp23009Data) (v m r : Int)
    (h : GoodState d) : GoodState (mcp23009_write_raw d v m r).data := by
  by_cases hm : m = IIO_CHAN_INFO_RAW
  · subst hm
    by_cases hv : 0 ≤ v ∧ v ≤ (d.num_out : Int)
    · obtain ⟨ha, hb⟩ := hv
      rw [write_raw_in_range d v r ha hb]
      refine ⟨?_, h.2⟩
      show v.toNat % 256 ≤ d.num_out
      have hv2 : v.toNat ≤ d.num_out := by omega
      exact le_trans (Nat.mod_le _ _) hv2
    · unfold mcp23009_write_raw
      rw [if_pos rfl, if_neg hv]
      exact h
  · unfold mcp23009_write_raw
    rw [if_neg hm]
    exact h

/-- Every sequence of post-probe driver calls preserves `GoodState`. -/
theorem runOps_preserves_goodState (ops : List Op) :
    ∀ d : Mcp23009Data, GoodState d → GoodState (runOps d ops) := by
  induction ops with
  | nil => intro d h; exact h
  | cons op rest ih =>
    intro d h
    cases op with
    | writeRaw v m r =>
      exact ih _ (write_raw_preserves_goodState d v m r h)
    | readRaw m => exact ih d h

/-- Claim C7: a state delivered by a successful probe has `out_value = 0`,
and after any sequence of write-raw/read-raw calls (with arbitrary channel
arguments, selectors and transport outcomes) the reached state still
satisfies `out_value ≤ num_out`. -/
theorem probe_invariant (n : Nat) (r1 r2 : Int) (d0 : Mcp23009Data)
    (h : (mcp23009_probe n r1 r2).data = some d0) (ops : List Op) :
    d0.out_value = 0 ∧
    (runOps d0 ops).out_value ≤ (runOps d0 ops).num_out := by
  have hd : d0.out_value = 0 ∧ d0.num_out ≤ 8 ∧ d0.out_value ≤ d0.num_out := by
    simp only [mcp23009_probe] at h
    split at h
    · simp at h
    · split at h
      · simp at h
      · split at h
        · simp at h
        · rename_i hn _ _
          simp only [Option.some.injEq] at h
          subst h
          exact ⟨rfl, by show n ≤ 8; omega, by show (0 : Nat) ≤ n; omega⟩
  refine ⟨hd.1, (runOps_preserves_goodState ops d0 ⟨hd.2.2, hd.2.1⟩).1⟩

/-- Witness for C7: probe with `num_out = 8`, then a successful
`SetValue(5)`, a read, and a rejected `SetValue(77)`. -/
theorem probe_invariant_witness :
    (⟨8, 0, 0⟩ : Mcp23009Data).out_value = 0 ∧
    (runOps ⟨8, 0, 0⟩
        [Op.writeRaw 5 0 2, Op.readRaw 0, Op.writeRaw 77 0 2]).out_value ≤
      (runOps ⟨8, 0, 0⟩
        [Op.writeRaw 5 0 2, Op.readRaw 0, Op.writeRaw 77 0 2]).num_out :=
  probe_invariant 8 2 2 ⟨8, 0, 0⟩ (by decide)
    [Op.writeRaw 5 0 2, Op.readRaw 0, Op.writeRaw 77 0 2]

/-- Claim C8: the read entry point returns the stored `out_value` for the
raw selector and the constant 1 for the scale selector; in both cases it
sends no frame on the bus (and, the embedding's type records, it assigns no
field of the state). -/
theorem readRaw_value_and_scale (d : Mcp23009Data) :
    mcp23009_read_raw d IIO_CHAN_INFO_RAW =
      ⟨IIO_VAL_INT, some (d.out_value : Int), []⟩ ∧
    mcp23009_read_raw d IIO_CHAN_INFO_SCALE = ⟨IIO_VAL_INT, some 1, []⟩ := by
  constructor
  · unfold mcp23009_read_raw
    rw [if_pos rfl]
  · unfold mcp23009_read_raw
    rw [if_neg (by decide), if_pos rfl]

/-- Claim C9: two consecutive `SetValue(channel)` calls with succeeding
transfers both return 0, send identical frames, and `ReadValue` observes the
same value after the second call as after the first. -/
theorem setValue_idempotent (d : Mcp23009Data) (val : Int)
    (hn : d.num_out ≤ 8) (h0 : 0 ≤ val) (h1 : val ≤ (d.num_out : Int)) :
    (mcp23009_write_raw d val IIO_CHAN_INFO_RAW 2).status = 0 ∧
    (mcp23009_write_raw (mcp23009_write_raw d val IIO_CHAN_INFO_RAW 2).data
        val IIO_CHAN_INFO_RAW 2).status = 0 ∧
    (mcp23009_write_raw (mcp23009_write_raw d val IIO_CHAN_INFO_RAW 2).data
        val IIO_CHAN_INFO_RAW 2).writes =
      (mcp23009_write_raw d val IIO_CHAN_INFO_RAW 2).writes ∧
    (mcp23009_read_raw
        (mcp23009_write_raw (mcp23009_write_raw d val IIO_CHAN_INFO_RAW 2).data
          val IIO_CHAN_INFO_RAW 2).data IIO_CHAN_INFO_RAW).val =
      (mcp23009_read_raw (mcp23009_write_raw d val IIO_CHAN_INFO_RAW 2).data
        IIO_CHAN_INFO_RAW).val := by
  have h8 : val ≤ 8 := h1.trans (by exact_mod_cast hn)
  rw [write_raw_in_range d val 2 h0 h1]
  dsimp only
  rw [write_raw_in_range ⟨d.num_out, val.toNat % 256, d.inout_mask⟩ val 2 h0 h1]
  dsimp only
  exact ⟨set_value_status_ok val h0 h8, set_value_status_ok val h0 h8, rfl, rfl⟩

/-- Witness for C9 at `num_out = 8`, channel 3. -/
theorem setValue_idempotent_witness :
    (mcp23009_write_raw ⟨8, 0, 0⟩ 3 IIO_CHAN_INFO_RAW 2).status = 0 ∧
    (mcp23009_write_raw (mcp23009_write_raw ⟨8, 0, 0⟩ 3 IIO_CHAN_INFO_RAW 2).data
        3 IIO_CHAN_INFO_RAW 2).status = 0 ∧
    (mcp23009_write_raw (mcp23009_write_raw ⟨8, 0, 0⟩ 3 IIO_CHAN_INFO_RAW 2).data
        3 IIO_CHAN_INFO_RAW 2).writes =
      (mcp23009_write_raw ⟨8, 0, 0⟩ 3 IIO_CHAN_INFO_RAW 2).writes ∧
    (mcp23009_read_raw
        (mcp23009_write_raw (mcp23009_write_raw ⟨8, 0, 0⟩ 3 IIO_CHAN_INFO_RAW 2).data
          3 IIO_CHAN_INFO_RAW 2).data IIO_CHAN_INFO_RAW).val =
      (mcp23009_read_raw (mcp23009_write_raw ⟨8, 0, 0⟩ 3 IIO_CHAN_INFO_RAW 2).data
        IIO_CHAN_INFO_RAW).val :=
  setValue_idempotent ⟨8, 0, 0⟩ 3 (by norm_num) (by norm_num) (by decide)

/-- Claim C10: a write request with any selector other than raw returns
`-EINVAL` with no frame sent and the state untouched; a read request with
any selector other than raw or scale returns `-EINVAL` with no frame. -/
theorem entry_points_reject_unknown_selector (d : Mcp23009Data)
    (val busRet mask : Int) :
    (mask ≠ IIO_CHAN_INFO_RAW →
      mcp23009_write_raw d val mask busRet = ⟨-EINVAL, d, []⟩) ∧
    (mask ≠ IIO_CHAN_INFO_RAW → mask ≠ IIO_CHAN_INFO_SCALE →
      mcp23009_read_raw d mask = ⟨-EINVAL, none, []⟩) := by
  constructor
  · intro hm
    unfold mcp23009_write_raw
    rw [if_neg hm]
  · intro hm hs
    unfold mcp23009_read_raw
    rw [if_neg hm, if_neg hs]

/-- Witness for C10 at selector 5. -/
theorem entry_points_reject_unknown_selector_witness :
    mcp23009_write_raw ⟨8, 0, 0⟩ 1 5 2 = ⟨-EINVAL, ⟨8, 0, 0⟩, []⟩ ∧
    mcp23009_read_raw ⟨8, 0, 0⟩ 5 = ⟨-EINVAL, none, []⟩ :=
  ⟨(entry_points_reject_unknown_selector ⟨8, 0, 0⟩ 1 2 5).1 (by decide),
   (entry_points_reject_unknown_selector ⟨8, 0, 0⟩ 1 2 5).2 (by decide) (by decide)⟩
